import Mathlib

/-!
Verification of the metric-extraction routine
`BearDashboardScraper.extract_brand_visibility_data`
(src/app/scraper/stagehand_scraper.py, lines 114-209).

Shallow embedding conventions:
* A page element is abstracted by the outcome of its `text_content()` call:
  either an exception (modelled as `Except.error msg`) or an optional string.
* The document handle (`self.page`) is abstracted by the outcome of each
  query it supports: `wait_for_selector(sel, timeout=1000)` either raises
  (timeout or any other exception, `Except.error msg`), or returns an
  optional element; `wait_for_timeout(2000)` either raises or returns.
  `asyncio.sleep` is a pure delay and needs no modelling.
* Python exceptions are `Except.error` carrying the human-readable message
  `str(e)`.
* A Python dict with a varying key set is modelled as a structure of
  `Option` fields; for the keys `extraction_method` and `error`, which are
  present in only one of the two return branches of the source, `none`
  means the key is absent from the returned dict.
* Python string operations: `text.lower()`, `text.strip()`, substring
  containment (`x in text`) and the two concrete `re.search` patterns are
  embedded below over `String.data` (lists of characters).  `Char.toLower`,
  `Char.isWhitespace` and `Char.isDigit` agree with their Python
  counterparts on the ASCII texts this routine handles.
-/

/-- Python `s.lower()` (line 141 / 169): lowercase every character. -/
def pyLower (s : String) : String := ⟨s.data.map Char.toLower⟩

/-- Python `s.strip()` (line 142 / 170): drop whitespace from both ends. -/
def pyStrip (s : String) : String :=
  ⟨((s.data.dropWhile Char.isWhitespace).reverse.dropWhile Char.isWhitespace).reverse⟩

/-- `needle` occurs as a contiguous run inside `haystack`. -/
def listContainsSub (needle : List Char) : List Char → Bool
  | [] => needle.isEmpty
  | c :: rest => needle.isPrefixOf (c :: rest) || listContainsSub needle rest

/-- Python substring containment `needle in haystack` (lines 141, 169). -/
def strContains (haystack needle : String) : Bool :=
  listContainsSub needle.data haystack.data

/-- Python truthiness of an optional string: `None` and `""` are falsy
(used by `if text`, `if brand_visibility:`, `if prompt_count:`). -/
def pyTruthy : Option String → Bool
  | none => false
  | some s => !s.isEmpty

/-- An element handle, abstracted by the outcome of `text_content()`:
an exception, or an optional string (text may be `None`). -/
structure Element where
  text_content : Except String (Option String)

/-- The authenticated page handle, abstracted by the outcomes of the two
queries the extraction routine performs on it. -/
structure Page where
  wait_for_selector : String → Except String (Option Element)
  wait_for_timeout : Except String Unit

/-- The visibility selector candidates, in source order (lines 127-134). -/
def selectors : List String :=
  ["[data-testid*=\x27visibility\x27]",
   "[class*=\x27visibility\x27]",
   "text=/.*visibility.*%/i",
   "text=/.*brand.*visibility.*/i",
   "[class*=\x27percentage\x27]",
   "[class*=\x27metric\x27]"]

/-- The prompt-count selector candidates, in source order (lines 155-162). -/
def prompt_selectors : List String :=
  ["[data-testid*=\x27prompt\x27]",
   "[class*=\x27prompt\x27]",
   "text=/.*prompt.*count.*/i",
   "text=/.*total.*prompt.*/i",
   "[class*=\x27count\x27]",
   "[class*=\x27metric\x27]"]

/-- Acceptance condition of the visibility loop (line 141):
`\x27%\x27 in text or \x27visibility\x27 in text.lower()`. -/
def visAccept (text : String) : Bool :=
  strContains text "%" || strContains (pyLower text) "visibility"

/-- Acceptance condition of the prompt-count loop (line 169):
`any(word in text.lower() for word in [\x27prompt\x27, \x27count\x27, \x27total\x27])`. -/
def promptAccept (text : String) : Bool :=
  ["prompt", "count", "total"].any (fun word => strContains (pyLower text) word)

/-- The selector loop shared by lines 136-146 and 164-174: for each
candidate selector in order, query the page with a 1s timeout inside a
bare `try ... except: continue`; if an element is returned and its text is
truthy and accepted, record `text.strip()` and break; otherwise move on to
the next candidate.  Any exception from the query or from `text_content`
is swallowed and the loop continues. -/
def findFirstText (page : Page) (accept : String → Bool) : List String → Option String
  | [] => none
  | sel :: rest =>
    match page.wait_for_selector sel with
    | .error _ => findFirstText page accept rest
    | .ok none => findFirstText page accept rest
    | .ok (some element) =>
      match element.text_content with
      | .error _ => findFirstText page accept rest
      | .ok none => findFirstText page accept rest
      | .ok (some text) =>
        if !text.isEmpty && accept text then some (pyStrip text)
        else findFirstText page accept rest

/-- The `brand_visibility` raw text after the first loop (lines 124-146). -/
def brandVisibilityRaw (page : Page) : Option String :=
  findFirstText page visAccept selectors

/-- The `prompt_count` raw text after the second loop (lines 152-174). -/
def promptCountRaw (page : Page) : Option String :=
  findFirstText page promptAccept prompt_selectors

/-- Try to match the regex `(\d+\.?\d*)%` at the head of `cs`, returning
the text of group 1 on success (line 183).  With this pattern, Python
backtracking cannot rescue a failed greedy attempt, so greedy matching is
exact: a maximal digit run, an optional dot with a following maximal digit
run, then a literal percent sign. -/
def matchPercentAt (cs : List Char) : Option (List Char) :=
  if (cs.takeWhile Char.isDigit).isEmpty then none
  else
    match cs.drop (cs.takeWhile Char.isDigit).length with
    | '%' :: _ => some (cs.takeWhile Char.isDigit)
    | '.' :: rest =>
      match rest.drop (rest.takeWhile Char.isDigit).length with
      | '%' :: _ =>
        some (cs.takeWhile Char.isDigit ++ '.' :: rest.takeWhile Char.isDigit)
      | _ => none
    | _ => none

/-- `re.search(r"(\d+\.?\d*)%", s)` (line 183): group 1 of the leftmost
match, scanning start positions left to right. -/
def searchPercent : List Char → Option (List Char)
  | [] => none
  | c :: rest =>
    match matchPercentAt (c :: rest) with
    | some g => some g
    | none => searchPercent rest

/-- Try to match the regex `(\d+)\s*total\s*prompts` at the head of `cs`,
returning the text of group 1 on success (line 189).  As above, greedy
matching is exact for this pattern. -/
def matchPromptAt (cs : List Char) : Option (List Char) :=
  if (cs.takeWhile Char.isDigit).isEmpty then none
  else
    if "total".data.isPrefixOf
        ((cs.drop (cs.takeWhile Char.isDigit).length).dropWhile Char.isWhitespace) then
      if "prompts".data.isPrefixOf
          ((((cs.drop (cs.takeWhile Char.isDigit).length).dropWhile
              Char.isWhitespace).drop 5).dropWhile Char.isWhitespace) then
        some (cs.takeWhile Char.isDigit)
      else none
    else none

/-- `re.search(r"(\d+)\s*total\s*prompts", s)` (line 189): group 1 of the
leftmost match. -/
def searchPrompt : List Char → Option (List Char)
  | [] => none
  | c :: rest =>
    match matchPromptAt (c :: rest) with
    | some g => some g
    | none => searchPrompt rest

/-- Line 185: `parsed_brand_visibility = f"{percentage_match.group(1)}%"`
when the percentage pattern matches, else the field stays `None`. -/
def parseBrandVisibility (raw : String) : Option String :=
  (searchPercent raw.data).map (fun g => ⟨g ++ ['%']⟩)

/-- Line 191: `parsed_prompt_count = count_match.group(1)` when the
prompt pattern matches, else the field stays `None`. -/
def parsePromptCount (raw : String) : Option String :=
  (searchPrompt raw.data).map (fun g => ⟨g⟩)

/-- The message of the `NameError` raised at line 189 when `re` is
referenced without line 182 having run: `import re` (line 182) is inside
the `if brand_visibility:` branch, so in the function scope `re` is an
unbound local whenever that branch was skipped.  The interpreter raises
`UnboundLocalError` (a subclass of `NameError`); this constant stands for
its `str(e)`. -/
def reUnboundMessage : String :=
  "cannot access local variable \x27re\x27 where it is not associated with a value"

/-- Lines 176-191: the parsing stage.  `if brand_visibility:` runs
`import re` and the percentage search; `if prompt_count:` runs the
prompt-count search, which raises the `NameError` above when `re` was
never imported. -/
def parseStage (brand_visibility prompt_count : Option String) :
    Except String (Option String × Option String) :=
  if pyTruthy brand_visibility then
    let parsed_brand_visibility := parseBrandVisibility (brand_visibility.getD "")
    let parsed_prompt_count :=
      if pyTruthy prompt_count then parsePromptCount (prompt_count.getD "") else none
    .ok (parsed_brand_visibility, parsed_prompt_count)
  else
    if pyTruthy prompt_count then .error reUnboundMessage
    else .ok (none, none)

/-- The result dict.  `brand_visibility_percentage` and `prompt_count`
are always present (`none` is the Python value `None`); for
`extraction_method` and `error`, `none` means the key is absent. -/
structure ExtractionResult where
  brand_visibility_percentage : Option String
  prompt_count : Option String
  extraction_method : Option String
  error : Option String
deriving DecidableEq, Repr

/-- The body of the `try` block of `extract_brand_visibility_data`
(lines 116-201): an uncaught exception is an `Except.error` carrying its
message.  `wait_for_timeout(2000)` (line 120) may raise; both selector
loops swallow their own exceptions; the parsing stage may raise the
`NameError`; the final dict (lines 194-198) carries the
`extraction_method` key but no `error` key. -/
def extractBody (page : Page) : Except String ExtractionResult := do
  let _ ← page.wait_for_timeout
  let brand_visibility := brandVisibilityRaw page
  let prompt_count := promptCountRaw page
  let (parsed_brand_visibility, parsed_prompt_count) ←
    parseStage brand_visibility prompt_count
  pure { brand_visibility_percentage := parsed_brand_visibility
         prompt_count := parsed_prompt_count
         extraction_method := some "playwright_selectors"
         error := none }

/-- `extract_brand_visibility_data` (lines 114-209): the top-level
`try/except` converts any uncaught exception into the dict of lines
205-209, whose keys are the two value fields (both `None`) and `error`
(the exception message); that dict has no `extraction_method` key. -/
def extract_brand_visibility_data (page : Page) : ExtractionResult :=
  match extractBody page with
  | .ok result => result
  | .error e =>
    { brand_visibility_percentage := none
      prompt_count := none
      extraction_method := none
      error := some e }

/-- The visibility acceptance predicate as the spec words it: the text
contains a percent sign or the word "visibility" case-insensitively.
Stated independently of the loop code, for comparison with it. -/
def specVisAccept (text : String) : Prop :=
  strContains text "%" = true ∨ strContains (pyLower text) "visibility" = true

instance (text : String) : Decidable (specVisAccept text) := by
  unfold specVisAccept; infer_instance

/-- The prompt-count acceptance predicate as the spec words it: the text
contains at least one of "prompt", "count", "total" case-insensitively. -/
def specPromptAccept (text : String) : Prop :=
  ∃ word ∈ ["prompt", "count", "total"], strContains (pyLower text) word = true

instance (text : String) : Decidable (specPromptAccept text) := by
  unfold specPromptAccept; infer_instance

/-- Shape of every non-null `brand_visibility_percentage`: a nonempty
digit run, then either a literal percent sign, or a dot, a possibly empty
digit run and a percent sign, with nothing after the percent sign. -/
def pctShape (s : String) : Bool :=
  !(s.data.takeWhile Char.isDigit).isEmpty &&
    match s.data.drop (s.data.takeWhile Char.isDigit).length with
    | ['%'] => true
    | '.' :: rest => rest.dropWhile Char.isDigit == ['%']
    | _ => false

/-- Shape of every non-null `prompt_count`: a nonempty string of digits. -/
def digitsOnly (s : String) : Bool :=
  !s.data.isEmpty && s.data.all Char.isDigit

/-! Concrete pages used to instantiate the theorems below. -/

/-- A page on which every selector query times out. -/
def pgTimeoutAll : Page where
  wait_for_selector := fun _ => .error "Timeout 1000ms exceeded"
  wait_for_timeout := .ok ()

/-- A page whose initial `wait_for_timeout(2000)` call raises. -/
def pgBoom : Page where
  wait_for_selector := fun _ => .error "Timeout 1000ms exceeded"
  wait_for_timeout := .error "Target page, context or browser has been closed"

/-- A page where only the third visibility candidate matches, with text
"Visibility: 10.3%". -/
def pgThirdVisibility : Page where
  wait_for_selector := fun sel =>
    if sel = "text=/.*visibility.*%/i" then
      .ok (some ⟨.ok (some "Visibility: 10.3%")⟩)
    else .error "Timeout 1000ms exceeded"
  wait_for_timeout := .ok ()

/-- A page where no visibility candidate matches but the first
prompt-count candidate yields "39 total prompts". -/
def pgPromptOnly : Page where
  wait_for_selector := fun sel =>
    if sel = "[data-testid*=\x27prompt\x27]" then
      .ok (some ⟨.ok (some "39 total prompts")⟩)
    else .error "Timeout 1000ms exceeded"
  wait_for_timeout := .ok ()

/-- A page where the first visibility candidate yields accepted text
"visibility is high", which the strict percentage pattern rejects. -/
def pgVisHigh : Page where
  wait_for_selector := fun sel =>
    if sel = "[data-testid*=\x27visibility\x27]" then
      .ok (some ⟨.ok (some "visibility is high")⟩)
    else .error "Timeout 1000ms exceeded"
  wait_for_timeout := .ok ()

/-- A page where the first prompt-count candidate yields accepted text
"42 prompts counted", which the strict "total prompts" pattern rejects. -/
def pgPromptOdd : Page where
  wait_for_selector := fun sel =>
    if sel = "[data-testid*=\x27prompt\x27]" then
      .ok (some ⟨.ok (some "42 prompts counted")⟩)
    else .error "Timeout 1000ms exceeded"
  wait_for_timeout := .ok ()

/-- A page where both the first and the third visibility candidates match
elements with accepted text; the first says "7%", the third says "9%". -/
def pgFirstAndThird : Page where
  wait_for_selector := fun sel =>
    if sel = "[data-testid*=\x27visibility\x27]" then
      .ok (some ⟨.ok (some "7%")⟩)
    else if sel = "text=/.*visibility.*%/i" then
      .ok (some ⟨.ok (some "9%")⟩)
    else .error "Timeout 1000ms exceeded"
  wait_for_timeout := .ok ()

/-- A page where both metrics are found: visibility "Visibility: 10.3%"
on the second candidate, prompt count "39 total prompts" on the first. -/
def pgBothMetrics : Page where
  wait_for_selector := fun sel =>
    if sel = "[class*=\x27visibility\x27]" then
      .ok (some ⟨.ok (some "Visibility: 10.3%")⟩)
    else if sel = "[data-testid*=\x27prompt\x27]" then
      .ok (some ⟨.ok (some "39 total prompts")⟩)
    else .error "Timeout 1000ms exceeded"
  wait_for_timeout := .ok ()

/-- An element whose text mentions prompts but not visibility. -/
def elPromptish : Element := ⟨.ok (some "Total: 39 prompts")⟩

/-- A page returning `elPromptish` for every selector. -/
def pgPromptish : Page where
  wait_for_selector := fun _ => .ok (some elPromptish)
  wait_for_timeout := .ok ()

/-! Helper lemmas. -/

theorem takeWhile_all_append {p : Char → Bool} (l r : List Char)
    (hl : ∀ a ∈ l, p a = true) :
    (l ++ r).takeWhile p = l ++ r.takeWhile p := by
  induction l with
  | nil => simp
  | cons a l ih =>
    simp only [List.cons_append, List.takeWhile_cons, hl a (by simp), if_pos]
    rw [ih (fun b hb => hl b (by simp [hb]))]

theorem dropWhile_all_append {p : Char → Bool} (l r : List Char)
    (hl : ∀ a ∈ l, p a = true) :
    (l ++ r).dropWhile p = r.dropWhile p := by
  induction l with
  | nil => simp
  | cons a l ih =>
    simp only [List.cons_append, List.dropWhile_cons, hl a (by simp), if_pos]
    exact ih (fun b hb => hl b (by simp [hb]))

theorem findFirstText_none (page : Page) (accept : String → Bool)
    (sels : List String)
    (h : ∀ sel ∈ sels, ∃ e, page.wait_for_selector sel = .error e) :
    findFirstText page accept sels = none := by
  induction sels with
  | nil => rfl
  | cons sel rest ih =>
    obtain ⟨e, he⟩ := h sel (by simp)
    simp only [findFirstText, he]
    exact ih (fun s hs => h s (by simp [hs]))

theorem extractBody_eq (page : Page) :
    extractBody page =
      match page.wait_for_timeout with
      | .error e => .error e
      | .ok _ =>
        match parseStage (brandVisibilityRaw page) (promptCountRaw page) with
        | .error e => .error e
        | .ok (pbv, ppc) =>
          .ok { brand_visibility_percentage := pbv, prompt_count := ppc,
                extraction_method := some "playwright_selectors", error := none } := by
  cases h1 : page.wait_for_timeout with
  | error e => simp [extractBody, h1, Bind.bind, Except.bind]
  | ok u =>
    cases h2 : parseStage (brandVisibilityRaw page) (promptCountRaw page) with
    | error e => simp [extractBody, h1, h2, Bind.bind, Except.bind]
    | ok pr =>
      cases pr with
      | mk pbv ppc =>
        simp [extractBody, h1, h2, Bind.bind, Except.bind, Pure.pure, Except.pure]

theorem extract_eq (page : Page) :
    extract_brand_visibility_data page =
      match page.wait_for_timeout with
      | .error e =>
        { brand_visibility_percentage := none, prompt_count := none,
          extraction_method := none, error := some e }
      | .ok _ =>
        match parseStage (brandVisibilityRaw page) (promptCountRaw page) with
        | .error e =>
          { brand_visibility_percentage := none, prompt_count := none,
            extraction_method := none, error := some e }
        | .ok (pbv, ppc) =>
          { brand_visibility_percentage := pbv, prompt_count := ppc,
            extraction_method := some "playwright_selectors", error := none } := by
  rw [extract_brand_visibility_data, extractBody_eq]
  cases h1 : page.wait_for_timeout with
  | error e => rfl
  | ok u =>
    cases h2 : parseStage (brandVisibilityRaw page) (promptCountRaw page) with
    | error e => rfl
    | ok pr => cases pr; rfl

theorem visAccept_iff (t : String) :
    (!t.isEmpty && visAccept t) = true ↔ specVisAccept t := by
  constructor
  · intro h
    have hacc : visAccept t = true := by
      rcases Bool.and_eq_true_iff.mp h with ⟨_, h2⟩
      exact h2
    unfold visAccept at hacc
    rcases Bool.or_eq_true_iff.mp hacc with h | h
    · exact Or.inl h
    · exact Or.inr h
  · intro h
    have hacc : visAccept t = true := by
      unfold visAccept
      rcases h with h | h <;> simp [h]
    have hne : t.isEmpty = false := by
      rcases Bool.eq_false_or_eq_true t.isEmpty with htr | hf
      · exfalso
        have ht : t = "" := (String.isEmpty_iff t).mp htr
        subst ht
        rcases h with h | h <;> exact absurd h (by decide)
      · exact hf
    simp [hne, hacc]

theorem promptAccept_iff (t : String) :
    (!t.isEmpty && promptAccept t) = true ↔ specPromptAccept t := by
  constructor
  · intro h
    have hacc : promptAccept t = true := by
      rcases Bool.and_eq_true_iff.mp h with ⟨_, h2⟩
      exact h2
    unfold promptAccept at hacc
    obtain ⟨w, hw, hc⟩ := List.any_eq_true.mp hacc
    exact ⟨w, hw, hc⟩
  · intro h
    obtain ⟨w, hw, hc⟩ := h
    have hacc : promptAccept t = true := by
      unfold promptAccept
      exact List.any_eq_true.mpr ⟨w, hw, hc⟩
    have hne : t.isEmpty = false := by
      rcases Bool.eq_false_or_eq_true t.isEmpty with htr | hf
      · exfalso
        have ht : t = "" := (String.isEmpty_iff t).mp htr
        subst ht
        simp only [List.mem_cons, List.not_mem_nil] at hw
        rcases hw with rfl | rfl | rfl | hw
        · exact absurd hc (by decide)
        · exact absurd hc (by decide)
        · exact absurd hc (by decide)
        · exact hw.elim
      · exact hf
    simp [hne, hacc]

theorem matchPercentAt_shape (cs g : List Char) (h : matchPercentAt cs = some g) :
    pctShape ⟨g ++ ['%']⟩ = true := by
  have hall : ∀ a ∈ cs.takeWhile Char.isDigit, Char.isDigit a = true :=
    fun a ha => List.mem_takeWhile_imp ha
  unfold matchPercentAt at h
  split at h
  · exact absurd h (by simp)
  · rename_i hne
    split at h
    · injection h with hg
      subst hg
      have h1 : ((cs.takeWhile Char.isDigit) ++ ['%']).takeWhile Char.isDigit
          = cs.takeWhile Char.isDigit := by
        rw [takeWhile_all_append _ _ hall]
        simp [List.takeWhile]
      unfold pctShape
      show (!(((cs.takeWhile Char.isDigit) ++ ['%']).takeWhile Char.isDigit).isEmpty
        && _) = true
      rw [h1, List.drop_left]
      simpa using hne
    · split at h
      · rename_i x1 rest hrest x2 tail htail
        injection h with hg
        subst hg
        have hall2 : ∀ a ∈ rest.takeWhile Char.isDigit, Char.isDigit a = true :=
          fun a ha => List.mem_takeWhile_imp ha
        have hdata :
            (cs.takeWhile Char.isDigit ++ '.' :: rest.takeWhile Char.isDigit) ++ ['%']
            = cs.takeWhile Char.isDigit
              ++ '.' :: (rest.takeWhile Char.isDigit ++ ['%']) := by
          simp
        have h1 : (cs.takeWhile Char.isDigit
              ++ '.' :: (rest.takeWhile Char.isDigit ++ ['%'])).takeWhile Char.isDigit
            = cs.takeWhile Char.isDigit := by
          rw [takeWhile_all_append _ _ hall]
          simp [List.takeWhile_cons]
        have h2 : (rest.takeWhile Char.isDigit ++ ['%']).dropWhile Char.isDigit
            = ['%'] := by
          rw [dropWhile_all_append _ _ hall2]
          simp [List.dropWhile_cons]
        unfold pctShape
        show (!(((cs.takeWhile Char.isDigit ++ '.' :: rest.takeWhile Char.isDigit)
            ++ ['%']).takeWhile Char.isDigit).isEmpty && _) = true
        rw [hdata, h1, List.drop_left]
        simp only [h2]
        simpa using hne
      · exact absurd h (by simp)
    · exact absurd h (by simp)

theorem searchPercent_shape (cs g : List Char) (h : searchPercent cs = some g) :
    pctShape ⟨g ++ ['%']⟩ = true := by
  induction cs with
  | nil => exact absurd h (by simp [searchPercent])
  | cons c rest ih =>
    unfold searchPercent at h
    cases hm : matchPercentAt (c :: rest) with
    | some g2 =>
      rw [hm] at h
      injection h with hg
      subst hg
      exact matchPercentAt_shape _ _ hm
    | none =>
      rw [hm] at h
      exact ih h

theorem matchPromptAt_digits (cs g : List Char) (h : matchPromptAt cs = some g) :
    g = cs.takeWhile Char.isDigit ∧ (cs.takeWhile Char.isDigit).isEmpty = false := by
  unfold matchPromptAt at h
  split at h
  · exact absurd h (by simp)
  · rename_i hne
    split at h
    · split at h
      · injection h with hg
        exact ⟨hg.symm, by simpa using hne⟩
      · exact absurd h (by simp)
    · exact absurd h (by simp)

theorem searchPrompt_digits (cs g : List Char) (h : searchPrompt cs = some g) :
    digitsOnly ⟨g⟩ = true := by
  induction cs with
  | nil => exact absurd h (by simp [searchPrompt])
  | cons c rest ih =>
    unfold searchPrompt at h
    cases hm : matchPromptAt (c :: rest) with
    | some g2 =>
      rw [hm] at h
      injection h with hg
      subst hg
      obtain ⟨hg, hne⟩ := matchPromptAt_digits _ _ hm
      subst hg
      have hall : ((c :: rest).takeWhile Char.isDigit).all Char.isDigit = true :=
        List.all_eq_true.mpr (fun a ha => List.mem_takeWhile_imp ha)
      simp [digitsOnly, hne, hall]
    | none =>
      rw [hm] at h
      exact ih h

theorem parseStage_shape (bv pc pbv ppc : Option String)
    (h : parseStage bv pc = .ok (pbv, ppc)) :
    (∀ s, pbv = some s → pctShape s = true) ∧
    (∀ s, ppc = some s → digitsOnly s = true) := by
  unfold parseStage at h
  split at h
  · simp only [Except.ok.injEq, Prod.mk.injEq] at h
    obtain ⟨h1, h2⟩ := h
    constructor
    · intro s hs
      rw [← h1] at hs
      unfold parseBrandVisibility at hs
      cases hsp : searchPercent (bv.getD "").data with
      | none => rw [hsp] at hs; exact absurd hs (by simp)
      | some g =>
        rw [hsp] at hs
        simp only [Option.map_some', Option.some.injEq] at hs
        subst hs
        exact searchPercent_shape _ _ hsp
    · intro s hs
      rw [← h2] at hs
      split at hs
      · unfold parsePromptCount at hs
        cases hsp : searchPrompt (pc.getD "").data with
        | none => rw [hsp] at hs; exact absurd hs (by simp)
        | some g =>
          rw [hsp] at hs
          simp only [Option.map_some', Option.some.injEq] at hs
          subst hs
          exact searchPrompt_digits _ _ hsp
      · exact absurd hs (by simp)
  · split at h
    · exact absurd h (by simp)
    · simp only [Except.ok.injEq, Prod.mk.injEq] at h
      obtain ⟨h1, h2⟩ := h
      constructor
      · intro s hs
        rw [← h1] at hs
        exact absurd hs (by simp)
      · intro s hs
        rw [← h2] at hs
        exact absurd hs (by simp)

theorem parseStage_truthy_bv (s : String) (hs : s.isEmpty = false)
    (pc : Option String) :
    parseStage (some s) pc =
      .ok (parseBrandVisibility s,
        if pyTruthy pc then parsePromptCount (pc.getD "") else none) := by
  unfold parseStage
  simp [pyTruthy, hs]

/-! Claim theorems. -/

/-- C1: for every document handle, `extract_brand_visibility_data` never
raises to its caller: any unhandled fault from anywhere in the body is
caught at the single top-level boundary and converted into a returned
result whose two value fields are null and whose `error` field holds the
fault message.  (Totality of the boundary is inherent in the embedding:
`extract_brand_visibility_data` is a total function, and this theorem
pins down the value it returns whenever the body faults.) -/
theorem extract_never_raises (page : Page) (msg : String)
    (h : extractBody page = .error msg) :
    extract_brand_visibility_data page =
      { brand_visibility_percentage := none, prompt_count := none,
        extraction_method := none, error := some msg } := by
  simp [extract_brand_visibility_data, h]

theorem extract_never_raises_witness :
    extractBody pgBoom = .error "Target page, context or browser has been closed" ∧
    extract_brand_visibility_data pgBoom =
      { brand_visibility_percentage := none, prompt_count := none,
        extraction_method := none,
        error := some "Target page, context or browser has been closed" } :=
  ⟨rfl, extract_never_raises pgBoom _ rfl⟩

/-- C2 counterexample: on a page whose `wait_for_timeout` call raises, the
returned fault-conversion dict (lines 205-209) does not contain the
`extraction_method` key, contradicting the claim that every result does. -/
theorem extraction_method_missing_on_fault :
    (extract_brand_visibility_data pgBoom).extraction_method = none ∧
    (extract_brand_visibility_data pgBoom).error =
      some "Target page, context or browser has been closed" :=
  ⟨rfl, rfl⟩

/-- C2 amended: the `extraction_method` key, with the fixed constant
"playwright_selectors", is present in every successfully computed result
(lines 194-198), but is absent from the fault-conversion result produced
by the top-level handler (lines 205-209). -/
theorem extraction_method_on_success_only (page : Page) :
    ((extract_brand_visibility_data page).error = none ∧
      (extract_brand_visibility_data page).extraction_method =
        some "playwright_selectors") ∨
    ((extract_brand_visibility_data page).error ≠ none ∧
      (extract_brand_visibility_data page).extraction_method = none) := by
  rw [extract_eq]
  cases h1 : page.wait_for_timeout with
  | error e => right; exact ⟨by simp, rfl⟩
  | ok u =>
    cases h2 : parseStage (brandVisibilityRaw page) (promptCountRaw page) with
    | error e => right; exact ⟨by simp, rfl⟩
    | ok pr => cases pr; left; exact ⟨rfl, rfl⟩

/-- C3: when no visibility candidate yields accepted raw text but some
prompt-count candidate does, the local `import re` (line 182) never runs,
so the prompt-count parse at line 189 raises the `NameError` (concretely
an `UnboundLocalError`), which the top-level handler converts into the
all-null, error-carrying result. -/
theorem prompt_without_visibility_faults (page : Page)
    (hw : page.wait_for_timeout = .ok ())
    (hbv : pyTruthy (brandVisibilityRaw page) = false)
    (hpc : pyTruthy (promptCountRaw page) = true) :
    extract_brand_visibility_data page =
      { brand_visibility_percentage := none, prompt_count := none,
        extraction_method := none, error := some reUnboundMessage } := by
  rw [extract_eq, hw]
  simp [parseStage, hbv, hpc]

theorem prompt_without_visibility_faults_witness :
    pyTruthy (brandVisibilityRaw pgPromptOnly) = false ∧
    pyTruthy (promptCountRaw pgPromptOnly) = true ∧
    extract_brand_visibility_data pgPromptOnly =
      { brand_visibility_percentage := none, prompt_count := none,
        extraction_method := none, error := some reUnboundMessage } :=
  ⟨rfl, rfl, prompt_without_visibility_faults pgPromptOnly rfl rfl rfl⟩

/-- C7: when every selector candidate of both metrics times out, the
result has both value fields null, still carries the fixed
`extraction_method` constant, and records no error: absence of matches is
not a fault. -/
theorem all_timeouts_empty_result (page : Page)
    (hw : page.wait_for_timeout = .ok ())
    (hsel : ∀ sel ∈ selectors ++ prompt_selectors,
      ∃ e, page.wait_for_selector sel = .error e) :
    extract_brand_visibility_data page =
      { brand_visibility_percentage := none, prompt_count := none,
        extraction_method := some "playwright_selectors", error := none } := by
  have hbv : brandVisibilityRaw page = none :=
    findFirstText_none page visAccept selectors
      (fun s hs => hsel s (List.mem_append_left _ hs))
  have hpc : promptCountRaw page = none :=
    findFirstText_none page promptAccept prompt_selectors
      (fun s hs => hsel s (List.mem_append_right _ hs))
  rw [extract_eq, hw, hbv, hpc]
  simp [parseStage, pyTruthy]

theorem all_timeouts_empty_result_witness :
    extract_brand_visibility_data pgTimeoutAll =
      { brand_visibility_percentage := none, prompt_count := none,
        extraction_method := some "playwright_selectors", error := none } :=
  all_timeouts_empty_result pgTimeoutAll rfl
    (fun _ _ => ⟨"Timeout 1000ms exceeded", rfl⟩)

/-- C4: when exactly the third visibility candidate matches an element
whose text is "Visibility: 10.3%" (every other visibility candidate times
out), the returned `brand_visibility_percentage` is the string "10.3%". -/
theorem third_selector_visibility (page : Page) (el : Element)
    (e1 e2 e4 e5 e6 : String)
    (hw : page.wait_for_timeout = .ok ())
    (h1 : page.wait_for_selector "[data-testid*=\x27visibility\x27]" = .error e1)
    (h2 : page.wait_for_selector "[class*=\x27visibility\x27]" = .error e2)
    (h3 : page.wait_for_selector "text=/.*visibility.*%/i" = .ok (some el))
    (ht : el.text_content = .ok (some "Visibility: 10.3%"))
    (h4 : page.wait_for_selector "text=/.*brand.*visibility.*/i" = .error e4)
    (h5 : page.wait_for_selector "[class*=\x27percentage\x27]" = .error e5)
    (h6 : page.wait_for_selector "[class*=\x27metric\x27]" = .error e6) :
    (extract_brand_visibility_data page).brand_visibility_percentage
      = some "10.3%" := by
  have hacc : (!("Visibility: 10.3%" : String).isEmpty
      && visAccept "Visibility: 10.3%") = true := by decide
  have hbv : brandVisibilityRaw page = some "Visibility: 10.3%" := by
    simp only [brandVisibilityRaw, selectors, findFirstText, h1, h2, h3, ht, hacc,
      if_true]
    rfl
  rw [extract_eq, hw, hbv,
    parseStage_truthy_bv "Visibility: 10.3%" (by decide) (promptCountRaw page)]
  have hparse : parseBrandVisibility "Visibility: 10.3%" = some "10.3%" := by rfl
  simp [hparse]

theorem third_selector_visibility_witness :
    (extract_brand_visibility_data pgThirdVisibility).brand_visibility_percentage
      = some "10.3%" :=
  third_selector_visibility pgThirdVisibility ⟨.ok (some "Visibility: 10.3%")⟩
    "Timeout 1000ms exceeded" "Timeout 1000ms exceeded" "Timeout 1000ms exceeded"
    "Timeout 1000ms exceeded" "Timeout 1000ms exceeded"
    rfl rfl rfl rfl rfl rfl rfl rfl

/-- C5 (code bug evidence): on a page where the prompt-count search
matches "39 total prompts" but no visibility text was found, the count is
parseable ("39"), yet the code returns the fault-conversion dict with
`prompt_count` null, because line 189 references `re` before line 182 ever
imported it.  The claimed behavior (`prompt_count == "39"`) is the spec
intent; the code diverges on exactly this input. -/
theorem prompt_only_loses_count :
    promptCountRaw pgPromptOnly = some "39 total prompts" ∧
    searchPrompt ("39 total prompts").data = some ['3', '9'] ∧
    extract_brand_visibility_data pgPromptOnly =
      { brand_visibility_percentage := none, prompt_count := none,
        extraction_method := none, error := some reUnboundMessage } :=
  ⟨rfl, rfl, rfl⟩

theorem parseStage_falsy_bv (bv pc : Option String) (h : pyTruthy bv = false) :
    parseStage bv pc =
      if pyTruthy pc then .error reUnboundMessage else .ok (none, none) := by
  unfold parseStage
  rw [h]
  simp

/-- C6: whenever the raw captured text of a metric does not fit that
metric's strict post-processing pattern, the corresponding output field of
the returned result is null despite the selector match. -/
theorem strict_parse_yields_null (page : Page) (t : String) :
    (brandVisibilityRaw page = some t → parseBrandVisibility t = none →
      (extract_brand_visibility_data page).brand_visibility_percentage = none) ∧
    (promptCountRaw page = some t → parsePromptCount t = none →
      (extract_brand_visibility_data page).prompt_count = none) := by
  rw [extract_eq]
  cases h1 : page.wait_for_timeout with
  | error e => exact ⟨fun _ _ => rfl, fun _ _ => rfl⟩
  | ok u =>
    constructor
    · intro hbv hparse
      rw [hbv]
      cases he : t.isEmpty with
      | true =>
        rw [parseStage_falsy_bv _ _ (by simp [pyTruthy, he])]
        cases hq : pyTruthy (promptCountRaw page) with
        | true => simp [hq]
        | false => simp [hq]
      | false =>
        rw [parseStage_truthy_bv t he (promptCountRaw page)]
        simp [hparse]
    · intro hpc hparse
      rw [hpc]
      cases hb : brandVisibilityRaw page with
      | some s =>
        cases he : s.isEmpty with
        | true =>
          rw [parseStage_falsy_bv _ _ (by simp [pyTruthy, he])]
          cases hq : pyTruthy (some t) with
          | true => simp [hq]
          | false => simp [hq]
        | false =>
          rw [parseStage_truthy_bv s he (some t)]
          cases hq : pyTruthy (some t) with
          | true => simp [hq, hparse]
          | false => simp [hq]
      | none =>
        rw [parseStage_falsy_bv none _ rfl]
        cases hq : pyTruthy (some t) with
        | true => simp [hq]
        | false => simp [hq]

theorem strict_parse_yields_null_witness :
    brandVisibilityRaw pgVisHigh = some "visibility is high" ∧
    parseBrandVisibility "visibility is high" = none ∧
    (extract_brand_visibility_data pgVisHigh).brand_visibility_percentage = none ∧
    promptCountRaw pgPromptOdd = some "42 prompts counted" ∧
    parsePromptCount "42 prompts counted" = none ∧
    (extract_brand_visibility_data pgPromptOdd).prompt_count = none :=
  ⟨rfl, rfl, (strict_parse_yields_null pgVisHigh "visibility is high").1 rfl rfl,
   rfl, rfl, (strict_parse_yields_null pgPromptOdd "42 prompts counted").2 rfl rfl⟩

/-- C8: candidate order is respected with early exit.  If both the first
and the third candidate selectors would match elements with accepted text,
the text captured is the first candidate's, stripped — regardless of what
any later candidate (including the third) would return: the conclusion
depends on no hypothesis about the second candidate or the tail of the
list, so no candidate after the first acceptance can influence the
result.  The statement is generic in the acceptance test and so covers
both the visibility loop and the prompt-count loop. -/
theorem first_candidate_wins (page : Page) (accept : String → Bool)
    (s1 s2 s3 : String) (rest : List String) (el1 el3 : Element) (t1 t3 : String)
    (h1 : page.wait_for_selector s1 = .ok (some el1))
    (ht1 : el1.text_content = .ok (some t1))
    (ha1 : (!t1.isEmpty && accept t1) = true)
    (h3 : page.wait_for_selector s3 = .ok (some el3))
    (ht3 : el3.text_content = .ok (some t3))
    (ha3 : (!t3.isEmpty && accept t3) = true) :
    findFirstText page accept (s1 :: s2 :: s3 :: rest) = some (pyStrip t1) := by
  simp only [findFirstText, h1, ht1, ha1, if_true]

theorem first_candidate_wins_witness :
    findFirstText pgFirstAndThird visAccept selectors = some "7%" :=
  first_candidate_wins pgFirstAndThird visAccept
    "[data-testid*=\x27visibility\x27]" "[class*=\x27visibility\x27]"
    "text=/.*visibility.*%/i"
    ["text=/.*brand.*visibility.*/i", "[class*=\x27percentage\x27]",
     "[class*=\x27metric\x27]"]
    ⟨.ok (some "7%")⟩ ⟨.ok (some "9%")⟩ "7%" "9%"
    rfl rfl (by decide) rfl rfl (by decide)

/-- C9: the acceptance predicates of the two selector loops are exactly
the spec's: an element text is accepted for visibility iff it contains a
percent sign or the word "visibility" case-insensitively, and for the
prompt count iff it contains one of "prompt", "count", "total"
case-insensitively; a text passing neither test is skipped and the loop
continues with the remaining candidates.  (The code's extra truthiness
guard `if text and ...` is subsumed: the empty string satisfies neither
predicate.) -/
theorem acceptance_predicates (page : Page) (sel : String) (rest : List String)
    (el : Element) (t : String)
    (hsel : page.wait_for_selector sel = .ok (some el))
    (ht : el.text_content = .ok (some t)) :
    (findFirstText page visAccept (sel :: rest) =
      if specVisAccept t then some (pyStrip t)
      else findFirstText page visAccept rest) ∧
    (findFirstText page promptAccept (sel :: rest) =
      if specPromptAccept t then some (pyStrip t)
      else findFirstText page promptAccept rest) := by
  constructor
  · by_cases h : specVisAccept t
    · have hc : (!t.isEmpty && visAccept t) = true := (visAccept_iff t).mpr h
      simp only [findFirstText, hsel, ht, hc, if_true, if_pos h]
    · have hc : (!t.isEmpty && visAccept t) = false := by
        rcases Bool.eq_false_or_eq_true (!t.isEmpty && visAccept t) with htr | hf
        · exact absurd ((visAccept_iff t).mp htr) h
        · exact hf
      simp only [findFirstText, hsel, ht, hc, Bool.false_eq_true, if_false,
        if_neg h]
  · by_cases h : specPromptAccept t
    · have hc : (!t.isEmpty && promptAccept t) = true := (promptAccept_iff t).mpr h
      simp only [findFirstText, hsel, ht, hc, if_true, if_pos h]
    · have hc : (!t.isEmpty && promptAccept t) = false := by
        rcases Bool.eq_false_or_eq_true (!t.isEmpty && promptAccept t) with htr | hf
        · exact absurd ((promptAccept_iff t).mp htr) h
        · exact hf
      simp only [findFirstText, hsel, ht, hc, Bool.false_eq_true, if_false,
        if_neg h]

theorem acceptance_predicates_witness :
    (findFirstText pgPromptish visAccept ["[class*=\x27metric\x27]"] =
      if specVisAccept "Total: 39 prompts" then some (pyStrip "Total: 39 prompts")
      else findFirstText pgPromptish visAccept []) ∧
    (findFirstText pgPromptish promptAccept ["[class*=\x27metric\x27]"] =
      if specPromptAccept "Total: 39 prompts" then some (pyStrip "Total: 39 prompts")
      else findFirstText pgPromptish promptAccept []) :=
  acceptance_predicates pgPromptish "[class*=\x27metric\x27]" [] elPromptish
    "Total: 39 prompts" rfl rfl

/-- C10: shape invariant of every non-fault result: a non-null
`brand_visibility_percentage` is a digit run, optionally a decimal point
and a further digit run, followed by a percent sign; a non-null
`prompt_count` is a nonempty string of digits. -/
theorem nonfault_result_shapes (page : Page) (r : ExtractionResult)
    (h : extractBody page = .ok r) :
    (∀ s, r.brand_visibility_percentage = some s → pctShape s = true) ∧
    (∀ s, r.prompt_count = some s → digitsOnly s = true) := by
  rw [extractBody_eq] at h
  cases h1 : page.wait_for_timeout with
  | error e => rw [h1] at h; exact absurd h (by simp)
  | ok u =>
    rw [h1] at h
    cases h2 : parseStage (brandVisibilityRaw page) (promptCountRaw page) with
    | error e => rw [h2] at h; exact absurd h (by simp)
    | ok pr =>
      cases pr with
      | mk pbv ppc =>
        rw [h2] at h
        injection h with h
        subst h
        exact parseStage_shape (brandVisibilityRaw page) (promptCountRaw page)
          pbv ppc h2

theorem nonfault_result_shapes_witness :
    pctShape "10.3%" = true ∧ digitsOnly "39" = true :=
  ⟨(nonfault_result_shapes pgBothMetrics
      { brand_visibility_percentage := some "10.3%", prompt_count := some "39",
        extraction_method := some "playwright_selectors", error := none }
      rfl).1 "10.3%" rfl,
   (nonfault_result_shapes pgBothMetrics
      { brand_visibility_percentage := some "10.3%", prompt_count := some "39",
        extraction_method := some "playwright_selectors", error := none }
      rfl).2 "39" rfl⟩
